import Mathlib

/-!
Shallow embedding of the Linux platform-channel plugin in
`src/linux/flutter_persistent_state_plugin.cc`.

The plugin receives a method call (a name plus an optional structured
argument), dispatches on the name with `strcmp`, and responds exactly once:
with a success response carrying `"Linux <utsname.version>"` for
`"getPlatformVersion"`, and with a not-implemented response for every
other name.  Registration creates a method channel named
`"flutter_persistent_state"` with the standard method codec and installs
the handler on it.

The OS environment is made explicit: `uname(2)` either fills the buffer
with the host data or fails and leaves the zero-initialized buffer
untouched (`struct utsname uname_data = {};` in the source).  The handler
is modelled as returning the list of responses it issues through
`fl_method_call_respond`, so "responds exactly once" is the statement that
this list always has length one.
-/

namespace FlutterPersistentState

/-- A structured channel value (`FlValue`).  The plugin only ever builds
string values (`fl_value_new_string`); other shapes are collapsed into the
constructors the claims need. -/
inductive FlValue where
  | null
  | string (s : String)
  deriving DecidableEq, Repr

/-- A method-call response (`FlMethodResponse`): the tagged union of
success (`fl_method_success_response_new`), error
(`fl_method_error_response_new`) and not-implemented
(`fl_method_not_implemented_response_new`). -/
inductive FlMethodResponse where
  | success (result : FlValue)
  | error (code message : String) (details : FlValue)
  | notImplemented
  deriving DecidableEq, Repr

/-- A method call (`FlMethodCall`): a name (`fl_method_call_get_name`)
and arguments. -/
structure FlMethodCall where
  name : String
  args : FlValue
  deriving DecidableEq, Repr

/-- `struct utsname`, restricted to the one field the plugin reads. -/
structure Utsname where
  version : String
  deriving DecidableEq, Repr

/-- The zero-initialized buffer `struct utsname uname_data = {};` — every
byte zero, so the `version` character array is the empty C string. -/
def utsnameZeroInit : Utsname := { version := "" }

/-- Outcome of the `uname(2)` system call: either the host's data, or a
failure.  The source ignores `uname`'s return value. -/
inductive UnameOutcome where
  | ok (data : Utsname)
  | fail
  deriving DecidableEq, Repr

/-- Effect of `uname(&buf)` on the buffer: on success the buffer is filled
with the host data; on failure it is left as it was. -/
def unameFill (outcome : UnameOutcome) (buf : Utsname) : Utsname :=
  match outcome with
  | .ok data => data
  | .fail => buf

/-- C `strcmp` on character sequences: lexicographic comparison returning
a negative, zero or positive result.  (The source compares UTF-8 bytes;
UTF-8 encoding is injective, so comparing the character sequences is
byte-faithful, and only the zero / non-zero distinction is consumed.) -/
def strcmp : List Char → List Char → Int
  | [], [] => 0
  | [], _ :: _ => -1
  | _ :: _, [] => 1
  | c1 :: t1, c2 :: t2 =>
    if c1.toNat < c2.toNat then -1
    else if c2.toNat < c1.toNat then 1
    else strcmp t1 t2

/-- `get_platform_version` (lines 38–44): zero-initialize a `utsname`
buffer, call `uname` ignoring its return value, format
`g_strdup_printf("Linux %s", uname_data.version)` and wrap the string in
a success response. -/
def get_platform_version (outcome : UnameOutcome) : FlMethodResponse :=
  let uname_data := unameFill outcome utsnameZeroInit
  let version := "Linux " ++ uname_data.version
  let result := FlValue.string version
  FlMethodResponse.success result

/-- `flutter_persistent_state_plugin_handle_method_call` (lines 22–36),
returning the list of responses issued through `fl_method_call_respond`:
dispatch on `strcmp(method, "getPlatformVersion")`, then respond exactly
once with the chosen response. -/
def flutter_persistent_state_plugin_handle_method_call
    (outcome : UnameOutcome) (method_call : FlMethodCall) :
    List FlMethodResponse :=
  let method := method_call.name
  let response :=
    if strcmp method.toList "getPlatformVersion".toList = 0 then
      get_platform_version outcome
    else
      FlMethodResponse.notImplemented
  [response]

/-- A method codec; the source only ever builds the standard one
(`fl_standard_method_codec_new`). -/
inductive FlMethodCodec where
  | standard
  deriving DecidableEq, Repr

/-- A method channel as configured by registration: its name, its codec
and the installed method-call handler. -/
structure FlMethodChannel where
  name : String
  codec : FlMethodCodec
  handler : UnameOutcome → FlMethodCall → List FlMethodResponse

/-- `method_call_cb` (lines 56–60): forwards the call to
`flutter_persistent_state_plugin_handle_method_call`. -/
def method_call_cb (outcome : UnameOutcome) (method_call : FlMethodCall) :
    List FlMethodResponse :=
  flutter_persistent_state_plugin_handle_method_call outcome method_call

/-- `flutter_persistent_state_plugin_register_with_registrar`
(lines 62–76): create a method channel named `"flutter_persistent_state"`
with the standard codec and install `method_call_cb` as its handler. -/
def flutter_persistent_state_plugin_register_with_registrar :
    FlMethodChannel :=
  { name := "flutter_persistent_state"
  , codec := FlMethodCodec.standard
  , handler := method_call_cb }

/-! Helper lemmas about `strcmp`. -/

theorem char_eq_of_toNat_eq {a b : Char} (h : a.toNat = b.toNat) :
    a = b := by
  apply Char.ext
  apply UInt32.ext
  simpa [Char.toNat, UInt32.toNat] using h

theorem strcmp_eq_zero_iff (l1 l2 : List Char) :
    strcmp l1 l2 = 0 ↔ l1 = l2 := by
  induction l1 generalizing l2 with
  | nil =>
    cases l2 with
    | nil => simp [strcmp]
    | cons c t => simp [strcmp]
  | cons c1 t1 ih =>
    cases l2 with
    | nil => simp [strcmp]
    | cons c2 t2 =>
      by_cases h1 : c1.toNat < c2.toNat
      · rw [strcmp, if_pos h1]
        constructor
        · intro h; exact absurd h (by decide)
        · intro h
          injection h with hc ht
          rw [hc] at h1
          omega
      · by_cases h2 : c2.toNat < c1.toNat
        · rw [strcmp, if_neg h1, if_pos h2]
          constructor
          · intro h; exact absurd h (by decide)
          · intro h
            injection h with hc ht
            rw [hc] at h2
            omega
        · have hc : c1 = c2 := char_eq_of_toNat_eq (by omega)
          rw [strcmp, if_neg h1, if_neg h2]
          simp [hc, ih]

theorem strcmp_self (l : List Char) : strcmp l l = 0 :=
  (strcmp_eq_zero_iff l l).mpr rfl

theorem strcmp_name_eq_zero_iff (s t : String) :
    strcmp s.toList t.toList = 0 ↔ s = t := by
  rw [strcmp_eq_zero_iff]
  constructor
  · intro h
    cases s with
    | mk d1 =>
      cases t with
      | mk d2 => exact congrArg String.mk (by simpa [String.toList] using h)
  · intro h; rw [h]

theorem linux_append_ne_empty (v : String) : "Linux " ++ v ≠ "" := by
  intro h
  have hd := congrArg String.data h
  rw [String.data_append] at hd
  simp at hd

/-- C1: for every invocation whose method name is not `"getPlatformVersion"`,
the handler responds with a NotImplemented response. -/
theorem C1_unknown_method_not_implemented
    (outcome : UnameOutcome) (call : FlMethodCall)
    (h : call.name ≠ "getPlatformVersion") :
    flutter_persistent_state_plugin_handle_method_call outcome call =
      [FlMethodResponse.notImplemented] := by
  have hz : strcmp call.name.toList "getPlatformVersion".toList ≠ 0 := by
    intro hz
    exact h ((strcmp_name_eq_zero_iff _ _).mp hz)
  simp only [flutter_persistent_state_plugin_handle_method_call]
  rw [if_neg hz]

/-- C1 witness: the `"frobnicate"` scenario gets a NotImplemented response. -/
theorem C1_unknown_method_not_implemented_witness :
    ("frobnicate" : String) ≠ "getPlatformVersion" ∧
      flutter_persistent_state_plugin_handle_method_call
          (UnameOutcome.ok { version := "5.15.0-generic" })
          { name := "frobnicate", args := FlValue.null } =
        [FlMethodResponse.notImplemented] :=
  ⟨by decide, C1_unknown_method_not_implemented _ _ (by decide)⟩

/-- C2: a `"getPlatformVersion"` invocation gets a Success response
carrying a string value, and that string is non-empty. -/
theorem C2_get_platform_version_success_nonempty
    (outcome : UnameOutcome) (args : FlValue) :
    ∃ s : String,
      flutter_persistent_state_plugin_handle_method_call outcome
          { name := "getPlatformVersion", args := args } =
        [FlMethodResponse.success (FlValue.string s)] ∧ s ≠ "" := by
  refine ⟨"Linux " ++ (unameFill outcome utsnameZeroInit).version, ?_, ?_⟩
  · simp [flutter_persistent_state_plugin_handle_method_call, strcmp_self,
      get_platform_version]
  · exact linux_append_ne_empty _

/-- C3: when `uname` succeeds, the string returned by
`get_platform_version` is the literal `"Linux "` followed by the operating
system's kernel version string (the `version` field of `utsname`). -/
theorem C3_version_string_form (data : Utsname) :
    get_platform_version (UnameOutcome.ok data) =
      FlMethodResponse.success
        (FlValue.string ("Linux " ++ data.version)) := rfl

/-- C4: for every invocation the handler issues exactly one response —
the list of `fl_method_call_respond` calls is a singleton — and the
handler is a total function, so every outcome becomes a response value. -/
theorem C4_exactly_one_response
    (outcome : UnameOutcome) (call : FlMethodCall) :
    ∃ r : FlMethodResponse,
      flutter_persistent_state_plugin_handle_method_call outcome call =
        [r] :=
  ⟨_, rfl⟩

/-- C5: `get_platform_version` is deterministic — two sequential calls
with the underlying OS version data unchanged return equal responses. -/
theorem C5_deterministic (o1 o2 : UnameOutcome) (h : o1 = o2) :
    get_platform_version o1 = get_platform_version o2 := by rw [h]

/-- C5 witness: two calls with identical OS data agree. -/
theorem C5_deterministic_witness :
    (UnameOutcome.ok { version := "5.15.0-generic" } : UnameOutcome) =
        UnameOutcome.ok { version := "5.15.0-generic" } ∧
      get_platform_version (UnameOutcome.ok { version := "5.15.0-generic" }) =
        get_platform_version
          (UnameOutcome.ok { version := "5.15.0-generic" }) :=
  ⟨rfl, C5_deterministic _ _ rfl⟩

/-- C6: the response to `"getPlatformVersion"` does not depend on the
invocation's arguments — any two argument values give equal responses
under the same OS data. -/
theorem C6_args_independent
    (outcome : UnameOutcome) (a1 a2 : FlValue) :
    flutter_persistent_state_plugin_handle_method_call outcome
        { name := "getPlatformVersion", args := a1 } =
      flutter_persistent_state_plugin_handle_method_call outcome
        { name := "getPlatformVersion", args := a2 } := rfl

/-- C7: registration creates the method channel under exactly the name
`"flutter_persistent_state"` with the standard method codec and installs
the plugin's method-call handler on it. -/
theorem C7_registration :
    flutter_persistent_state_plugin_register_with_registrar.name =
        "flutter_persistent_state" ∧
      flutter_persistent_state_plugin_register_with_registrar.codec =
        FlMethodCodec.standard ∧
      flutter_persistent_state_plugin_register_with_registrar.handler =
        flutter_persistent_state_plugin_handle_method_call :=
  ⟨rfl, rfl, rfl⟩

/-- C8: method-name matching is exact (`strcmp` equality): every name
whose character sequence differs from `"getPlatformVersion"` anywhere —
case variants included — gets a NotImplemented response. -/
theorem C8_exact_byte_matching
    (outcome : UnameOutcome) (call : FlMethodCall)
    (h : call.name.toList ≠ "getPlatformVersion".toList) :
    flutter_persistent_state_plugin_handle_method_call outcome call =
      [FlMethodResponse.notImplemented] := by
  have hz : strcmp call.name.toList "getPlatformVersion".toList ≠ 0 := by
    intro hz
    exact h ((strcmp_eq_zero_iff _ _).mp hz)
  simp only [flutter_persistent_state_plugin_handle_method_call]
  rw [if_neg hz]

/-- C8 witness: the case variant `"GetPlatformVersion"` gets a
NotImplemented response. -/
theorem C8_exact_byte_matching_witness :
    "GetPlatformVersion".toList ≠ "getPlatformVersion".toList ∧
      flutter_persistent_state_plugin_handle_method_call
          (UnameOutcome.ok { version := "5.15.0-generic" })
          { name := "GetPlatformVersion", args := FlValue.null } =
        [FlMethodResponse.notImplemented] :=
  ⟨by decide, C8_exact_byte_matching _ _ (by decide)⟩

/-- C9: the bridge never produces an Error response — every invocation's
single response is either a Success (for `"getPlatformVersion"`) or
NotImplemented (for any other name). -/
theorem C9_no_error_response
    (outcome : UnameOutcome) (call : FlMethodCall) :
    ∃ r : FlMethodResponse,
      flutter_persistent_state_plugin_handle_method_call outcome call =
          [r] ∧
        ((∃ v, r = FlMethodResponse.success v) ∨
          r = FlMethodResponse.notImplemented) := by
  by_cases h : strcmp call.name.toList "getPlatformVersion".toList = 0
  · refine ⟨get_platform_version outcome, ?_, Or.inl ⟨_, rfl⟩⟩
    simp only [flutter_persistent_state_plugin_handle_method_call]
    rw [if_pos h]
  · refine ⟨FlMethodResponse.notImplemented, ?_, Or.inr rfl⟩
    simp only [flutter_persistent_state_plugin_handle_method_call]
    rw [if_neg h]

/-- C10: `get_platform_version` is total even when `uname` fails — the
buffer is zero-initialized and the return value of `uname` is ignored, so
a failing call still yields a Success response with the string
`"Linux "` followed by the (empty) version field. -/
theorem C10_total_on_uname_failure :
    get_platform_version UnameOutcome.fail =
      FlMethodResponse.success (FlValue.string "Linux ") := rfl

end FlutterPersistentState
